import Mathlib

/-!
Verification of the CLIP image feature extraction service (main.py).

The development shallowly embeds the model-loading retry loop, the readiness
gate, and the single and batch extraction endpoints. External collaborators
(PIL decoding, the CLIP processor and model) are opaque oracles passed in as
functions; embeddings are modelled over the real numbers. Each handler also
returns the engine state it finished with and a trace of the external
operations it attempted, so that frame conditions and gating claims can be
stated directly.
-/

namespace ClipService

/- ## String helpers: Python `.lower()` and the `in` substring test -/

/-- Whether the first character list is an initial segment of the second. -/
def charsStartWith : List Char → List Char → Bool
  | [], _ => true
  | _ :: _, [] => false
  | a :: pat, b :: txt => a == b && charsStartWith pat txt

/-- Whether the first character list occurs contiguously inside the second. -/
def charsContain (pat : List Char) : List Char → Bool
  | [] => pat.isEmpty
  | b :: txt => charsStartWith pat (b :: txt) || charsContain pat txt

/-- Substring test, mirroring the Python `pat in s` operator on strings. -/
def strContainsSub (s pat : String) : Bool :=
  charsContain pat.data s.data

/-- ASCII lower-casing, mirroring the Python `str.lower()` call. -/
def lowerStr (s : String) : String :=
  String.mk (s.data.map Char.toLower)

/-- The network-failure classification of `load_model_with_retry`:
the lowered error message contains the word timeout or the word connection. -/
def isNetworkError (msg : String) : Bool :=
  strContainsSub (lowerStr msg) ("timeout") || strContainsSub (lowerStr msg) ("connection")

/- ## Data model -/

/-- A decoded in-memory image: its PIL color mode and abstract pixel content. -/
structure Image where
  mode : String
  pix : Nat
deriving DecidableEq

/-- Opaque handle for a preprocessed tensor batch (output of the processor). -/
abbrev Prepped := Nat

/-- The CLIP processor as an oracle: image to preprocessed tensors, or failure. -/
abbrev ProcFn := Image → Except String Prepped

/-- The CLIP model `get_image_features` as an oracle: tensors to the raw
feature vector of the single image, or failure. -/
abbrev ModelFn := Prepped → Except String (List ℝ)

/-- PIL `Image.open` as an oracle: raw bytes to a decoded image, or failure. -/
abbrev DecodeFn := List Nat → Except String Image

/-- The module-level globals `model`, `processor`, `device` of main.py. -/
structure EngineState where
  model : Option ModelFn
  processor : Option ProcFn
  device : Option String

/-- The globals at process start: all three are None. -/
def initialState : EngineState := EngineState.mk none none none

/-- One uploaded file: declared filename and raw byte content. -/
structure FileInput where
  filename : String
  content : List Nat
deriving DecidableEq

/-- External operations a handler can attempt, recorded in order. -/
inductive Op where
  | readFile (filename : String)
  | decodeOp (filename : String)
  | preprocessOp (filename : String)
  | inferOp (filename : String)
deriving DecidableEq

/- ## Vector mathematics -/

/-- Sum of squares of the entries of a vector. -/
noncomputable def sqSum (v : List ℝ) : ℝ :=
  (v.map fun x => x * x).sum

/-- Euclidean norm of a vector. -/
noncomputable def l2norm (v : List ℝ) : ℝ :=
  Real.sqrt (sqSum v)

/-- The normalization `image_features / image_features.norm(...)` of main.py:
divide every entry by the Euclidean norm. -/
noncomputable def l2normalize (v : List ℝ) : List ℝ :=
  v.map fun x => x / l2norm v

/- ## The extraction pipeline -/

/-- The mode conversion of main.py: `if image.mode == RGBA: image.convert(RGB)`.
Only the exact mode RGBA is rewritten; every other mode passes through. -/
def normalizeMode (img : Image) : Image :=
  if img.mode = ("RGBA") then Image.mk ("RGB") img.pix else img

/-- The body of the try block shared by both endpoints: read the file, decode
it, normalize the mode, preprocess, run the model, normalize the features.
Returns the outcome together with the trace of attempted operations. -/
noncomputable def runPipeline (dF : DecodeFn) (p : ProcFn) (m : ModelFn) (file : FileInput) :
    Except String (List ℝ) × List Op :=
  match dF file.content with
  | .error e =>
      (.error e, [Op.readFile file.filename, Op.decodeOp file.filename])
  | .ok img =>
      match p (normalizeMode img) with
      | .error e =>
          (.error e,
           [Op.readFile file.filename, Op.decodeOp file.filename,
            Op.preprocessOp file.filename])
      | .ok t =>
          match m t with
          | .error e =>
              (.error e,
               [Op.readFile file.filename, Op.decodeOp file.filename,
                Op.preprocessOp file.filename, Op.inferOp file.filename])
          | .ok raw =>
              (.ok (l2normalize raw),
               [Op.readFile file.filename, Op.decodeOp file.filename,
                Op.preprocessOp file.filename, Op.inferOp file.filename])

/-- Response of the single-extraction endpoint: the 200 success body with the
embedding and its dimension, or an HTTP error with status and detail. -/
inductive SingleResponse where
  | ok (embedding : List ℝ) (dimension : Nat)
  | httpError (status : Nat) (detail : String)

/-- Response assembly of the single endpoint: a success body on success, the
500 with the generic failure detail on any caught exception. -/
noncomputable def wrapSingle (r : Except String (List ℝ)) : SingleResponse :=
  match r with
  | .ok emb => SingleResponse.ok emb emb.length
  | .error e => SingleResponse.httpError 500 (("Feature extraction failed: ") ++ e)

/-- The `/extract-features` handler: gate on the globals, then run the
pipeline. Returns the response, the engine state after the call, and the
trace of attempted external operations. -/
noncomputable def extract_features (dF : DecodeFn) (st : EngineState) (file : FileInput) :
    SingleResponse × EngineState × List Op :=
  match st.model, st.processor with
  | some m, some p =>
      (wrapSingle (runPipeline dF p m file).1, st, (runPipeline dF p m file).2)
  | none, _ => (SingleResponse.httpError 503 ("Model not loaded"), st, [])
  | some _, none => (SingleResponse.httpError 503 ("Model not loaded"), st, [])

/-- One entry of the batch results list: either the per-item success record
with filename, embedding and dimension, or the per-item error record. -/
inductive BatchItem where
  | ok (filename : String) (embedding : List ℝ) (dimension : Nat)
  | err (filename : String) (error : String)

/-- Response of the batch endpoint: the 200 envelope with its success flag and
results list, or an HTTP error with status and detail. -/
inductive BatchResponse where
  | ok (success : Bool) (results : List BatchItem)
  | httpError (status : Nat) (detail : String)

/-- Per-item response assembly in the batch loop. -/
noncomputable def wrapItem (filename : String) (r : Except String (List ℝ)) : BatchItem :=
  match r with
  | .ok emb => BatchItem.ok filename emb emb.length
  | .error e => BatchItem.err filename e

/-- One iteration of the batch loop: run the pipeline for the file, catching
any failure as that item error record. -/
noncomputable def processItem (dF : DecodeFn) (p : ProcFn) (m : ModelFn) (file : FileInput) :
    BatchItem × List Op :=
  (wrapItem file.filename (runPipeline dF p m file).1, (runPipeline dF p m file).2)

/-- The `for file in files` loop of the batch endpoint, accumulating one item
per input in order, and concatenating the traces. -/
noncomputable def batchLoop (dF : DecodeFn) (p : ProcFn) (m : ModelFn) :
    List FileInput → List BatchItem × List Op
  | [] => ([], [])
  | f :: rest =>
      ((processItem dF p m f).1 :: (batchLoop dF p m rest).1,
       (processItem dF p m f).2 ++ (batchLoop dF p m rest).2)

/-- The `/extract-features-batch` handler: gate on the globals once, then run
the loop; the envelope always carries the success flag true. -/
noncomputable def extract_features_batch (dF : DecodeFn) (st : EngineState)
    (files : List FileInput) : BatchResponse × EngineState × List Op :=
  match st.model, st.processor with
  | some m, some p =>
      (BatchResponse.ok true (batchLoop dF p m files).1, st, (batchLoop dF p m files).2)
  | none, _ => (BatchResponse.httpError 503 ("Model not loaded"), st, [])
  | some _, none => (BatchResponse.httpError 503 ("Model not loaded"), st, [])

/- ## The model loader -/

/-- Outcome of one loading attempt: the loaded model and processor handles, or
an exception with its message. -/
inductive AttemptResult where
  | ok (m : ModelFn) (p : ProcFn)
  | err (msg : String)

/-- Result of a run of `load_model_with_retry`: the returned value or raised
exception, the final globals, the sleeps performed in order, and the attempt
indices on which a load was actually tried. -/
structure LoaderTrace where
  outcome : Except String Bool
  finalState : EngineState
  sleeps : List Nat
  attempts : List Nat

/-- The `for attempt in range(max_retries)` loop of `load_model_with_retry`,
structurally recursive on the remaining iterations. Before each retry
(attempt positive) it sleeps the current delay and doubles it; a success
stores the handles in the globals; a failure is classified by
`isNetworkError` and either continues (attempts remain) or propagates. -/
def load_attempts (f : Nat → AttemptResult) (maxRetries : Nat) :
    Nat → Nat → Nat → EngineState → List Nat → List Nat → LoaderTrace
  | 0, _, _, st, sleeps, tried => LoaderTrace.mk (.ok false) st sleeps tried
  | remaining + 1, attempt, delay, st, sleeps, tried =>
      match f attempt with
      | .ok m p =>
          LoaderTrace.mk (.ok true)
            (EngineState.mk (some m) (some p) st.device)
            (if 0 < attempt then sleeps ++ [delay] else sleeps)
            (tried ++ [attempt])
      | .err msg =>
          if isNetworkError msg then
            if attempt < maxRetries - 1 then
              load_attempts f maxRetries remaining (attempt + 1)
                (if 0 < attempt then delay * 2 else delay) st
                (if 0 < attempt then sleeps ++ [delay] else sleeps)
                (tried ++ [attempt])
            else
              LoaderTrace.mk (.error msg) st
                (if 0 < attempt then sleeps ++ [delay] else sleeps)
                (tried ++ [attempt])
          else
            LoaderTrace.mk (.error msg) st
              (if 0 < attempt then sleeps ++ [delay] else sleeps)
              (tried ++ [attempt])

/-- `load_model_with_retry(max_retries, retry_delay)`: select the device, then
run the attempt loop from attempt zero with empty histories. -/
def load_model_with_retry (f : Nat → AttemptResult) (cudaAvailable : Bool)
    (st : EngineState) (maxRetries retryDelay : Nat) : LoaderTrace :=
  load_attempts f maxRetries maxRetries 0 retryDelay
    (EngineState.mk st.model st.processor
      (some (if cudaAvailable then ("cuda") else ("cpu")))) [] []

/-- The startup half of the lifespan manager: a raised exception aborts
startup; any returned value (True or False) lets startup complete with the
globals as the loader left them. -/
def lifespan_startup (tr : LoaderTrace) : Except String EngineState :=
  match tr.outcome with
  | .error e => .error e
  | .ok _ => .ok tr.finalState

/- ## Theorems -/

/-- Claim C2: every extraction request, single or batch, issued while the
engine is not ready (model or processor unloaded) fails with the 503
service-unavailable response, leaves the state unchanged, and attempts no
file read, decode, preprocessing or inference work (empty trace); the batch
fails uniformly with no per-item attempt. -/
theorem not_ready_returns_503 (dF : DecodeFn) (st : EngineState)
    (h : st.model = none ∨ st.processor = none)
    (file : FileInput) (files : List FileInput) :
    extract_features dF st file
      = (SingleResponse.httpError 503 ("Model not loaded"), st, []) ∧
    extract_features_batch dF st files
      = (BatchResponse.httpError 503 ("Model not loaded"), st, []) := by
  obtain ⟨om, op, dev⟩ := st
  cases om <;> cases op <;> simp_all [extract_features, extract_features_batch]

/-- Witness for C2 at the initial state and a concrete request. -/
theorem not_ready_returns_503_witness :
    (initialState.model = none ∨ initialState.processor = none) ∧
    extract_features (fun _ => Except.error ("x")) initialState (FileInput.mk ("a") [7])
      = (SingleResponse.httpError 503 ("Model not loaded"), initialState, []) ∧
    extract_features_batch (fun _ => Except.error ("x")) initialState [FileInput.mk ("a") [7]]
      = (BatchResponse.httpError 503 ("Model not loaded"), initialState, []) :=
  ⟨Or.inl rfl,
   (not_ready_returns_503 (fun _ => Except.error ("x")) initialState (Or.inl rfl)
      (FileInput.mk ("a") [7]) [FileInput.mk ("a") [7]]).1,
   (not_ready_returns_503 (fun _ => Except.error ("x")) initialState (Or.inl rfl)
      (FileInput.mk ("a") [7]) [FileInput.mk ("a") [7]]).2⟩

/-- Claim C8: no extraction request, whether it succeeds or fails at decode or
inference, mutates the engine state: both handlers return the exact state
they started with, for every state, decoder and input. -/
theorem extraction_preserves_state (dF : DecodeFn) (st : EngineState)
    (file : FileInput) (files : List FileInput) :
    (extract_features dF st file).2.1 = st ∧
    (extract_features_batch dF st files).2.1 = st := by
  obtain ⟨om, op, dev⟩ := st
  cases om <;> cases op <;> simp [extract_features, extract_features_batch]

/-- Claim C10: with max_retries = 0 the attempt loop never executes: no load
is attempted, no sleep occurs, no exception is raised and the loader returns
False; the lifespan startup, which only treats exceptions as failure, then
completes with model and processor still unset, and every subsequent
extraction request answers 503. -/
theorem max_retries_zero_silent_noload (f : Nat → AttemptResult) (cuda : Bool)
    (d : Nat) (dF : DecodeFn) (file : FileInput) (files : List FileInput) :
    (load_model_with_retry f cuda initialState 0 d).outcome = Except.ok false ∧
    (load_model_with_retry f cuda initialState 0 d).attempts = [] ∧
    (load_model_with_retry f cuda initialState 0 d).sleeps = [] ∧
    (load_model_with_retry f cuda initialState 0 d).finalState.model = none ∧
    (load_model_with_retry f cuda initialState 0 d).finalState.processor = none ∧
    lifespan_startup (load_model_with_retry f cuda initialState 0 d)
      = Except.ok (load_model_with_retry f cuda initialState 0 d).finalState ∧
    (extract_features dF (load_model_with_retry f cuda initialState 0 d).finalState file).1
      = SingleResponse.httpError 503 ("Model not loaded") ∧
    (extract_features_batch dF (load_model_with_retry f cuda initialState 0 d).finalState files).1
      = BatchResponse.httpError 503 ("Model not loaded") := by
  simp [load_model_with_retry, load_attempts, lifespan_startup, initialState,
    extract_features, extract_features_batch]

/-- Claim C3: with maxRetries equal to three and initial delay d, if the
first two attempts fail with network-classified errors and the third
succeeds, the load succeeds overall, exactly two sleeps occur of d and then
the doubled d, the total slept delay is d plus twice d, all three attempts
were tried, and the loaded handles are stored in the state. -/
theorem retry_backoff_two_failures (f : Nat → AttemptResult) (cuda : Bool)
    (st : EngineState) (d : Nat) (m : ModelFn) (p : ProcFn) (e0 e1 : String)
    (h0 : f 0 = AttemptResult.err e0) (h1 : f 1 = AttemptResult.err e1)
    (h2 : f 2 = AttemptResult.ok m p)
    (hn0 : isNetworkError e0 = true) (hn1 : isNetworkError e1 = true) :
    (load_model_with_retry f cuda st 3 d).outcome = Except.ok true ∧
    (load_model_with_retry f cuda st 3 d).sleeps = [d, d * 2] ∧
    (load_model_with_retry f cuda st 3 d).sleeps.sum = d + 2 * d ∧
    (load_model_with_retry f cuda st 3 d).attempts = [0, 1, 2] ∧
    (load_model_with_retry f cuda st 3 d).finalState.model = some m ∧
    (load_model_with_retry f cuda st 3 d).finalState.processor = some p := by
  simp [load_model_with_retry, load_attempts, h0, h1, h2, hn0, hn1]
  omega

/-- Witness for C3: a loader failing twice with a connection error and then
succeeding, run with three retries and delay five. -/
theorem retry_backoff_two_failures_witness :
    isNetworkError ("Connection timed out") = true ∧
    (load_model_with_retry
      (fun n => if n < 2 then AttemptResult.err ("Connection timed out")
                else AttemptResult.ok (fun _ => Except.ok []) (fun _ => Except.ok 0))
      false initialState 3 5).outcome = Except.ok true ∧
    (load_model_with_retry
      (fun n => if n < 2 then AttemptResult.err ("Connection timed out")
                else AttemptResult.ok (fun _ => Except.ok []) (fun _ => Except.ok 0))
      false initialState 3 5).sleeps = [5, 5 * 2] :=
  ⟨by decide,
   (retry_backoff_two_failures
      (fun n => if n < 2 then AttemptResult.err ("Connection timed out")
                else AttemptResult.ok (fun _ => Except.ok []) (fun _ => Except.ok 0))
      false initialState 5 (fun _ => Except.ok []) (fun _ => Except.ok 0)
      ("Connection timed out") ("Connection timed out")
      rfl rfl rfl (by decide) (by decide)).1,
   (retry_backoff_two_failures
      (fun n => if n < 2 then AttemptResult.err ("Connection timed out")
                else AttemptResult.ok (fun _ => Except.ok []) (fun _ => Except.ok 0))
      false initialState 5 (fun _ => Except.ok []) (fun _ => Except.ok 0)
      ("Connection timed out") ("Connection timed out")
      rfl rfl rfl (by decide) (by decide)).2.1⟩

/-- Claim C4: a loader run whose first attempt fails with an error that is
not network-classified propagates that error immediately: the outcome is the
raised exception, no sleep occurs, only attempt zero was tried, and the
model and processor globals are untouched. -/
theorem nonnetwork_error_fatal (f : Nat → AttemptResult) (cuda : Bool)
    (st : EngineState) (maxRetries d : Nat) (e : String)
    (hmr : 0 < maxRetries) (h0 : f 0 = AttemptResult.err e)
    (hn : isNetworkError e = false) :
    (load_model_with_retry f cuda st maxRetries d).outcome = Except.error e ∧
    (load_model_with_retry f cuda st maxRetries d).sleeps = [] ∧
    (load_model_with_retry f cuda st maxRetries d).attempts = [0] ∧
    (load_model_with_retry f cuda st maxRetries d).finalState.model = st.model ∧
    (load_model_with_retry f cuda st maxRetries d).finalState.processor = st.processor := by
  obtain ⟨k, rfl⟩ : ∃ k, maxRetries = k + 1 := ⟨maxRetries - 1, by omega⟩
  simp [load_model_with_retry, load_attempts, h0, hn]

/-- Witness for C4: a loader failing once with a disk error, run with three
retries. -/
theorem nonnetwork_error_fatal_witness :
    0 < 3 ∧ isNetworkError ("disk full") = false ∧
    (load_model_with_retry (fun _ => AttemptResult.err ("disk full"))
      true initialState 3 5).outcome = Except.error ("disk full") ∧
    (load_model_with_retry (fun _ => AttemptResult.err ("disk full"))
      true initialState 3 5).sleeps = [] ∧
    (load_model_with_retry (fun _ => AttemptResult.err ("disk full"))
      true initialState 3 5).attempts = [0] :=
  ⟨by decide, by decide,
   (nonnetwork_error_fatal (fun _ => AttemptResult.err ("disk full")) true
      initialState 3 5 ("disk full") (by decide) rfl (by decide)).1,
   (nonnetwork_error_fatal (fun _ => AttemptResult.err ("disk full")) true
      initialState 3 5 ("disk full") (by decide) rfl (by decide)).2.1,
   (nonnetwork_error_fatal (fun _ => AttemptResult.err ("disk full")) true
      initialState 3 5 ("disk full") (by decide) rfl (by decide)).2.2.1⟩

/-- The batch loop produces exactly the per-item results, in input order:
entry i is a function of input i alone. -/
theorem batchLoop_fst_eq_map (dF : DecodeFn) (p : ProcFn) (m : ModelFn) :
    ∀ files : List FileInput,
      (batchLoop dF p m files).1 = files.map fun f => (processItem dF p m f).1 := by
  intro files
  induction files with
  | nil => rfl
  | cons f rest ih => simp [batchLoop, ih]

/-- Every per-item result is either the success record or the error record
for the filename of that very input. -/
theorem processItem_shape (dF : DecodeFn) (p : ProcFn) (m : ModelFn) (f : FileInput) :
    (∃ emb dim, (processItem dF p m f).1 = BatchItem.ok f.filename emb dim) ∨
    (∃ e, (processItem dF p m f).1 = BatchItem.err f.filename e) := by
  cases h : (runPipeline dF p m f).1 with
  | ok emb => exact Or.inl ⟨emb, emb.length, by simp [processItem, wrapItem, h]⟩
  | error e => exact Or.inr ⟨e, by simp [processItem, wrapItem, h]⟩

/-- Claim C1: when the engine is ready, batch extraction returns one result
entry per input file in input order, each entry being exactly the outcome of
processing that file alone (so a decode or inference failure of one item
never prevents the others from being processed); entries are success records
or error records carrying the corresponding input filename, and the results
list has the same length as the input list. -/
theorem batch_results_one_per_input (dF : DecodeFn) (st : EngineState)
    (m : ModelFn) (p : ProcFn)
    (hm : st.model = some m) (hp : st.processor = some p)
    (files : List FileInput) :
    (extract_features_batch dF st files).1
      = BatchResponse.ok true (files.map fun f => (processItem dF p m f).1) ∧
    (files.map fun f => (processItem dF p m f).1).length = files.length ∧
    ∀ f : FileInput,
      (∃ emb dim, (processItem dF p m f).1 = BatchItem.ok f.filename emb dim) ∨
      (∃ e, (processItem dF p m f).1 = BatchItem.err f.filename e) := by
  obtain ⟨om, op, dev⟩ := st
  simp only [EngineState.model] at hm
  simp only [EngineState.processor] at hp
  subst hm
  subst hp
  refine ⟨?_, by simp, fun f => processItem_shape dF p m f⟩
  simp [extract_features_batch, batchLoop_fst_eq_map]

/-- Witness for C1: a ready engine whose decoder rejects every byte buffer,
on a two-file batch. -/
theorem batch_results_one_per_input_witness :
    (EngineState.mk (some fun _ => Except.ok []) (some fun _ => Except.ok 0)
        (some ("cpu"))).model = some (fun _ => Except.ok []) ∧
    (extract_features_batch (fun _ => Except.error ("bad bytes"))
        (EngineState.mk (some fun _ => Except.ok []) (some fun _ => Except.ok 0)
          (some ("cpu")))
        [FileInput.mk ("a.png") [1], FileInput.mk ("b.png") [2]]).1
      = BatchResponse.ok true
          ([FileInput.mk ("a.png") [1], FileInput.mk ("b.png") [2]].map fun f =>
            (processItem (fun _ => Except.error ("bad bytes"))
              (fun _ => Except.ok 0) (fun _ => Except.ok []) f).1) :=
  ⟨rfl,
   (batch_results_one_per_input (fun _ => Except.error ("bad bytes"))
      (EngineState.mk (some fun _ => Except.ok []) (some fun _ => Except.ok 0)
        (some ("cpu")))
      (fun _ => Except.ok []) (fun _ => Except.ok 0) rfl rfl
      [FileInput.mk ("a.png") [1], FileInput.mk ("b.png") [2]]).1⟩

/-- Claim C9: when the engine is ready, the batch envelope always reports
success true, whatever the decoder and the per-item outcomes are; per-item
success or failure is carried only inside the results entries. -/
theorem batch_envelope_always_success (dF : DecodeFn) (st : EngineState)
    (m : ModelFn) (p : ProcFn)
    (hm : st.model = some m) (hp : st.processor = some p)
    (files : List FileInput) :
    (extract_features_batch dF st files).1
      = BatchResponse.ok true (batchLoop dF p m files).1 := by
  obtain ⟨om, op, dev⟩ := st
  simp only [EngineState.model] at hm
  simp only [EngineState.processor] at hp
  subst hm
  subst hp
  simp [extract_features_batch]

/-- Witness for C9: a ready engine whose decoder rejects everything still
answers with the success-true envelope. -/
theorem batch_envelope_always_success_witness :
    (EngineState.mk (some fun _ => Except.ok []) (some fun _ => Except.ok 0)
        (some ("cpu"))).processor = some (fun _ => Except.ok 0) ∧
    (extract_features_batch (fun _ => Except.error ("broken"))
        (EngineState.mk (some fun _ => Except.ok []) (some fun _ => Except.ok 0)
          (some ("cpu")))
        [FileInput.mk ("c.png") [3]]).1
      = BatchResponse.ok true
          (batchLoop (fun _ => Except.error ("broken"))
            (fun _ => Except.ok 0) (fun _ => Except.ok [])
            [FileInput.mk ("c.png") [3]]).1 :=
  ⟨rfl,
   batch_envelope_always_success (fun _ => Except.error ("broken"))
      (EngineState.mk (some fun _ => Except.ok []) (some fun _ => Except.ok 0)
        (some ("cpu")))
      (fun _ => Except.ok []) (fun _ => Except.ok 0) rfl rfl
      [FileInput.mk ("c.png") [3]]⟩

/-- The PIL color modes that carry an alpha channel, following the spec words
that any alpha-bearing mode, not only RGBA, should be normalized. -/
def alphaModes : List String := [("RGBA"), ("LA"), ("PA"), ("RGBa"), ("La")]

/-- Whether the mode of an image carries an alpha channel. -/
def hasAlphaMode (img : Image) : Bool := alphaModes.contains img.mode

/-- Counterexample to claim C5 as stated: the image mode LA carries an alpha
channel, yet the decode stage leaves it untouched instead of converting it to
a 3-channel representation; only the exact mode RGBA is converted. -/
theorem alpha_mode_LA_not_converted :
    hasAlphaMode (Image.mk ("LA") 0) = true ∧
    normalizeMode (Image.mk ("LA") 0) = Image.mk ("LA") 0 ∧
    (normalizeMode (Image.mk ("LA") 0)).mode ≠ ("RGB") := by
  refine ⟨by decide, ?_, by decide⟩
  simp [normalizeMode]

/-- Claim C5 amended: the decode stage converts exactly the images whose mode
is RGBA to the 3-channel mode RGB, keeping the pixel content (straight alpha
drop); every image in any other mode, alpha-bearing or not, passes through
unchanged, and the conversion itself never errors. -/
theorem normalizeMode_only_RGBA (img : Image) :
    (img.mode = ("RGBA") → normalizeMode img = Image.mk ("RGB") img.pix) ∧
    (img.mode ≠ ("RGBA") → normalizeMode img = img) := by
  constructor <;> intro h <;> simp [normalizeMode, h]

/-- Witness for the amended C5: an RGBA image is rewritten to RGB with the
same pixels, and an LA image passes through. -/
theorem normalizeMode_only_RGBA_witness :
    (Image.mk ("RGBA") 4).mode = ("RGBA") ∧
    normalizeMode (Image.mk ("RGBA") 4) = Image.mk ("RGB") 4 ∧
    (Image.mk ("LA") 4).mode ≠ ("RGBA") ∧
    normalizeMode (Image.mk ("LA") 4) = Image.mk ("LA") 4 :=
  ⟨rfl, (normalizeMode_only_RGBA (Image.mk ("RGBA") 4)).1 rfl,
   by decide, (normalizeMode_only_RGBA (Image.mk ("LA") 4)).2 (by decide)⟩

/- ## Claim C6: decode versus inference failures at the response layer -/

/-- A decoder that always raises the message boom. -/
def c6decodeFail : DecodeFn := fun _ => Except.error ("boom")

/-- A decoder that always succeeds with a plain RGB image. -/
def c6decodeOk : DecodeFn := fun _ => Except.ok (Image.mk ("RGB") 0)

/-- A ready engine whose model succeeds. -/
def c6stOk : EngineState :=
  EngineState.mk (some fun _ => Except.ok []) (some fun _ => Except.ok 0) (some ("cpu"))

/-- A ready engine whose model raises the message boom. -/
def c6stInferFail : EngineState :=
  EngineState.mk (some fun _ => Except.error ("boom")) (some fun _ => Except.ok 0)
    (some ("cpu"))

/-- A concrete uploaded file. -/
def c6file : FileInput := FileInput.mk ("a.png") [1]

/-- Counterexample to claim C6 as stated: a decode failure and an inference
failure with the same cause text produce byte-identical responses on the
single-extraction endpoint, even though the two runs are genuinely different
(their traces of attempted operations differ). -/
theorem decode_infer_responses_collide :
    (extract_features c6decodeFail c6stOk c6file).1
      = (extract_features c6decodeOk c6stInferFail c6file).1 ∧
    (extract_features c6decodeFail c6stOk c6file).2.2
      ≠ (extract_features c6decodeOk c6stInferFail c6file).2.2 := by
  constructor
  · rfl
  · decide

/-- Left-cancellation of string append. -/
theorem string_append_left_cancel (a b c : String) (h : a ++ b = a ++ c) : b = c := by
  obtain ⟨al⟩ := a
  obtain ⟨bl⟩ := b
  obtain ⟨cl⟩ := c
  have hd : al ++ bl = al ++ cl := congrArg String.data h
  exact congrArg String.mk (List.append_cancel_left hd)

/-- Claim C6 amended: on the single-extraction endpoint a decode failure and
an inference failure surface with the same shape, status 500 and the generic
detail followed by the cause text; the two responses are therefore
distinguishable exactly when their cause texts differ. -/
theorem decode_infer_response_format (dF1 dF2 : DecodeFn) (st1 st2 : EngineState)
    (m1 : ModelFn) (p1 : ProcFn) (m2 : ModelFn) (p2 : ProcFn)
    (f1 f2 : FileInput) (img : Image) (t : Prepped) (e1 e2 : String)
    (hm1 : st1.model = some m1) (hp1 : st1.processor = some p1)
    (hm2 : st2.model = some m2) (hp2 : st2.processor = some p2)
    (hdec : dF1 f1.content = Except.error e1)
    (hok : dF2 f2.content = Except.ok img)
    (hpp : p2 (normalizeMode img) = Except.ok t)
    (hinf : m2 t = Except.error e2) :
    (extract_features dF1 st1 f1).1
      = SingleResponse.httpError 500 (("Feature extraction failed: ") ++ e1) ∧
    (extract_features dF2 st2 f2).1
      = SingleResponse.httpError 500 (("Feature extraction failed: ") ++ e2) ∧
    ((extract_features dF1 st1 f1).1 = (extract_features dF2 st2 f2).1 ↔ e1 = e2) := by
  obtain ⟨om1, op1, dev1⟩ := st1
  obtain ⟨om2, op2, dev2⟩ := st2
  simp only [EngineState.model] at hm1 hm2
  simp only [EngineState.processor] at hp1 hp2
  subst hm1; subst hp1; subst hm2; subst hp2
  have r1 : (extract_features dF1 (EngineState.mk (some m1) (some p1) dev1) f1).1
      = SingleResponse.httpError 500 (("Feature extraction failed: ") ++ e1) := by
    simp [extract_features, runPipeline, hdec, wrapSingle]
  have r2 : (extract_features dF2 (EngineState.mk (some m2) (some p2) dev2) f2).1
      = SingleResponse.httpError 500 (("Feature extraction failed: ") ++ e2) := by
    simp [extract_features, runPipeline, hok, hpp, hinf, wrapSingle]
  refine ⟨r1, r2, ?_⟩
  rw [r1, r2]
  constructor
  · intro h
    have hd : ("Feature extraction failed: ") ++ e1
        = ("Feature extraction failed: ") ++ e2 := by
      injection h
    exact string_append_left_cancel _ _ _ hd
  · intro h
    rw [h]

/-- Witness for the amended C6: concrete runs failing at decode with cause
boom and at inference with cause crash; the responses have the stated shape
and their equality reduces to equality of the cause texts. -/
theorem decode_infer_response_format_witness :
    c6decodeFail c6file.content = Except.error ("boom") ∧
    (extract_features c6decodeFail c6stOk c6file).1
      = SingleResponse.httpError 500 (("Feature extraction failed: ") ++ ("boom")) ∧
    (extract_features (fun _ => Except.ok (Image.mk ("RGB") 0))
        (EngineState.mk (some fun _ => Except.error ("crash"))
          (some fun _ => Except.ok 0) (some ("cpu"))) c6file).1
      = SingleResponse.httpError 500 (("Feature extraction failed: ") ++ ("crash")) ∧
    ((extract_features c6decodeFail c6stOk c6file).1
        = (extract_features (fun _ => Except.ok (Image.mk ("RGB") 0))
            (EngineState.mk (some fun _ => Except.error ("crash"))
              (some fun _ => Except.ok 0) (some ("cpu"))) c6file).1
      ↔ ("boom") = ("crash")) :=
  ⟨rfl,
   (decode_infer_response_format c6decodeFail (fun _ => Except.ok (Image.mk ("RGB") 0))
      c6stOk (EngineState.mk (some fun _ => Except.error ("crash"))
        (some fun _ => Except.ok 0) (some ("cpu")))
      (fun _ => Except.ok []) (fun _ => Except.ok 0)
      (fun _ => Except.error ("crash")) (fun _ => Except.ok 0)
      c6file c6file (Image.mk ("RGB") 0) 0 ("boom") ("crash")
      rfl rfl rfl rfl rfl rfl rfl rfl).1,
   (decode_infer_response_format c6decodeFail (fun _ => Except.ok (Image.mk ("RGB") 0))
      c6stOk (EngineState.mk (some fun _ => Except.error ("crash"))
        (some fun _ => Except.ok 0) (some ("cpu")))
      (fun _ => Except.ok []) (fun _ => Except.ok 0)
      (fun _ => Except.error ("crash")) (fun _ => Except.ok 0)
      c6file c6file (Image.mk ("RGB") 0) 0 ("boom") ("crash")
      rfl rfl rfl rfl rfl rfl rfl rfl).2.1,
   (decode_infer_response_format c6decodeFail (fun _ => Except.ok (Image.mk ("RGB") 0))
      c6stOk (EngineState.mk (some fun _ => Except.error ("crash"))
        (some fun _ => Except.ok 0) (some ("cpu")))
      (fun _ => Except.ok []) (fun _ => Except.ok 0)
      (fun _ => Except.error ("crash")) (fun _ => Except.ok 0)
      c6file c6file (Image.mk ("RGB") 0) 0 ("boom") ("crash")
      rfl rfl rfl rfl rfl rfl rfl rfl).2.2⟩

/- ## Claim C7: the embedding is the normalized raw vector of length 512 -/

/-- The sum of squares of a real vector is nonnegative. -/
theorem sqSum_nonneg (v : List ℝ) : 0 ≤ sqSum v := by
  apply List.sum_nonneg
  intro x hx
  simp only [List.mem_map] at hx
  obtain ⟨a, _, rfl⟩ := hx
  exact mul_self_nonneg a

/-- Dividing every entry by a constant divides the sum of squares by the
square of that constant. -/
theorem sqSum_map_div (v : List ℝ) (c : ℝ) :
    sqSum (v.map fun x => x / c) = sqSum v / (c * c) := by
  induction v with
  | nil => simp [sqSum]
  | cons a t ih =>
      simp only [List.map_cons, sqSum, List.sum_cons] at ih ⊢
      rw [ih, div_mul_div_comm, div_add_div_same]

/-- Normalizing a vector of nonzero Euclidean norm yields a unit vector. -/
theorem l2norm_l2normalize (v : List ℝ) (hv : l2norm v ≠ 0) :
    l2norm (l2normalize v) = 1 := by
  have hS : 0 ≤ sqSum v := sqSum_nonneg v
  have hS0 : sqSum v ≠ 0 := fun h => hv (by simp [l2norm, h])
  have key : sqSum (l2normalize v) = 1 := by
    simp only [l2normalize, sqSum_map_div, l2norm]
    rw [Real.mul_self_sqrt hS, div_self hS0]
  simp [l2norm, key]

/-- Claim C7: for a valid image processed while the engine is ready, when the
raw model output has length 512 and nonzero norm, the endpoint returns the
raw vector divided by its Euclidean norm, of length exactly 512, with
Euclidean norm within one hundred-thousandth of one, and the dimension field
equals 512. -/
theorem extract_unit_embedding (dF : DecodeFn) (st : EngineState)
    (m : ModelFn) (p : ProcFn) (file : FileInput) (img : Image) (t : Prepped)
    (raw : List ℝ)
    (hm : st.model = some m) (hp : st.processor = some p)
    (hdec : dF file.content = Except.ok img)
    (hpp : p (normalizeMode img) = Except.ok t)
    (hraw : m t = Except.ok raw)
    (hlen : raw.length = 512) (hnz : l2norm raw ≠ 0) :
    (extract_features dF st file).1 = SingleResponse.ok (l2normalize raw) 512 ∧
    (l2normalize raw).length = 512 ∧
    |l2norm (l2normalize raw) - 1| ≤ 1 / 100000 := by
  obtain ⟨om, op, dev⟩ := st
  simp only [EngineState.model] at hm
  simp only [EngineState.processor] at hp
  subst hm; subst hp
  refine ⟨?_, ?_, ?_⟩
  · simp [extract_features, runPipeline, hdec, hpp, hraw, wrapSingle, l2normalize, hlen]
  · simp [l2normalize, hlen]
  · rw [l2norm_l2normalize raw hnz]
    norm_num

/-- The raw vector of the C7 witness: a one followed by 511 zeros. -/
noncomputable def c7raw : List ℝ := (1 : ℝ) :: List.replicate 511 0

/-- A model oracle answering the C7 witness vector. -/
noncomputable def c7model : ModelFn := fun _ => Except.ok c7raw

/-- A processor oracle that always succeeds. -/
def c7proc : ProcFn := fun _ => Except.ok 0

/-- A ready engine for the C7 witness. -/
noncomputable def c7st : EngineState :=
  EngineState.mk (some c7model) (some c7proc) (some ("cpu"))

/-- A decoder that succeeds with a plain RGB image. -/
def c7dF : DecodeFn := fun _ => Except.ok (Image.mk ("RGB") 0)

/-- A concrete uploaded file for the C7 witness. -/
def c7file : FileInput := FileInput.mk ("img.png") [9]

/-- The witness vector has sum of squares one. -/
theorem c7raw_sqSum : sqSum c7raw = 1 := by
  simp only [c7raw, sqSum, List.map_cons, List.map_replicate, List.sum_cons,
    List.sum_replicate, mul_zero, smul_zero, mul_one, add_zero]

/-- The witness vector has nonzero norm. -/
theorem c7raw_norm_ne : l2norm c7raw ≠ 0 := by
  have h : l2norm c7raw = 1 := by
    simp only [l2norm, c7raw_sqSum, Real.sqrt_one]
  rw [h]
  exact one_ne_zero

/-- Witness for C7 at the concrete vector with a single one entry. -/
theorem extract_unit_embedding_witness :
    c7raw.length = 512 ∧ l2norm c7raw ≠ 0 ∧
    (extract_features c7dF c7st c7file).1 = SingleResponse.ok (l2normalize c7raw) 512 ∧
    |l2norm (l2normalize c7raw) - 1| ≤ 1 / 100000 :=
  ⟨by simp only [c7raw, List.length_cons, List.length_replicate], c7raw_norm_ne,
   (extract_unit_embedding c7dF c7st c7model c7proc c7file (Image.mk ("RGB") 0) 0 c7raw
      rfl rfl rfl rfl rfl
      (by simp only [c7raw, List.length_cons, List.length_replicate])
      c7raw_norm_ne).1,
   (extract_unit_embedding c7dF c7st c7model c7proc c7file (Image.mk ("RGB") 0) 0 c7raw
      rfl rfl rfl rfl rfl
      (by simp only [c7raw, List.length_cons, List.length_replicate])
      c7raw_norm_ne).2.2⟩

end ClipService
